import Mathlib

/-!
Verification of `src/mail_service/email_client.py`, a minimal gRPC client that
asks a remote email service to deliver an order-confirmation email and logs the
outcome.

The Python function is embedded as a pure Lean function from its arguments and
the outcome of the one remote call to the trace of observable events it performs
(channel operations, the remote request, log emissions) together with its
result (`Except.ok ()` when it returns normally, `Except.error e` if an
exception would propagate to the caller).  The email address, the order record
and the remote response payload are opaque to the client code, so they are kept
as type parameters of the embedding.
-/

namespace MailService

/-- Log levels used by the JSON logger in this file. -/
inductive LogLevel where
  | info
  | error
deriving DecidableEq

/-- A structured log record: a level and a message string. -/
structure LogEntry where
  level : LogLevel
  msg : String
deriving DecidableEq

/-- The classification code carried by a remote-call failure, as the external
RPC layer supplies it: a name and a numeric value
(e.g. `UNAVAILABLE` / `14`). -/
structure StatusCode where
  name : String
  value : Nat
deriving DecidableEq

/-- A remote-call failure (`grpc.RpcError`): a human-readable detail string
(`err.details()`) and a classification code (`err.code()`). -/
structure RpcError where
  details : String
  code : StatusCode
deriving DecidableEq

/-- The request envelope `demo_pb2.SendOrderConfirmationRequest`, with its two
fields `email` and `order`. -/
structure SendOrderConfirmationRequest (Email Order : Type) where
  email : Email
  order : Order
deriving DecidableEq

/-- The outcome of the one remote call: either the stub returns a response
payload, or it raises a `grpc.RpcError`. -/
inductive RemoteOutcome (Resp : Type) where
  | success (response : Resp)
  | failure (err : RpcError)
deriving DecidableEq

/-- An observable event performed by the client: opening or closing a transport
channel to an address, issuing the remote `SendOrderConfirmation` call with a
request envelope, or emitting a log record. -/
inductive Event (Email Order : Type) where
  | openChannel (addr : String)
  | closeChannel (addr : String)
  | sendOrderConfirmation (req : SendOrderConfirmationRequest Email Order)
  | log (entry : LogEntry)
deriving DecidableEq

/-- Embedding of `send_confirmation_email(email, order)`.  The body:

* `channel = grpc.insecure_channel('[::]:8080')` — one `openChannel` event;
* `stub.SendOrderConfirmation(demo_pb2.SendOrderConfirmationRequest(email = email, order = order))`
  — one `sendOrderConfirmation` event carrying exactly the two arguments;
* on success, `logger.info('Request sent.')`;
* on `grpc.RpcError`, `logger.error(err.details())` then
  `logger.error('\x7b\x7d, \x7b\x7d'.format(err.code().name, err.code().value))`.

The function returns `None` on both paths (the exception is caught and
discarded), so the second component is `Except.ok ()` in both branches. -/
def send_confirmation_email {Email Order Resp : Type}
    (email : Email) (order : Order) (outcome : RemoteOutcome Resp) :
    List (Event Email Order) × Except RpcError Unit :=
  let req : SendOrderConfirmationRequest Email Order := ⟨email, order⟩
  match outcome with
  | .success _response =>
      ([Event.openChannel "[::]:8080",
        Event.sendOrderConfirmation req,
        Event.log ⟨LogLevel.info, "Request sent."⟩],
       Except.ok ())
  | .failure err =>
      ([Event.openChannel "[::]:8080",
        Event.sendOrderConfirmation req,
        Event.log ⟨LogLevel.error, err.details⟩,
        Event.log ⟨LogLevel.error, err.code.name ++ ", " ++ toString err.code.value⟩],
       Except.ok ())

/-- The trace of observable events of one invocation. -/
def trace {Email Order Resp : Type}
    (email : Email) (order : Order) (outcome : RemoteOutcome Resp) :
    List (Event Email Order) :=
  (send_confirmation_email email order outcome).1

/-- The result of one invocation: `Except.ok ()` models a normal return of
`None`, `Except.error e` would model an exception escaping to the caller. -/
def result {Email Order Resp : Type}
    (email : Email) (order : Order) (outcome : RemoteOutcome Resp) :
    Except RpcError Unit :=
  (send_confirmation_email email order outcome).2

/-- The remote requests issued in a trace, in order. -/
def sends {Email Order : Type} (events : List (Event Email Order)) :
    List (SendOrderConfirmationRequest Email Order) :=
  events.filterMap fun e =>
    match e with
    | .sendOrderConfirmation req => some req
    | _ => none

/-- The addresses of the channels opened in a trace, in order. -/
def opens {Email Order : Type} (events : List (Event Email Order)) : List String :=
  events.filterMap fun e =>
    match e with
    | .openChannel addr => some addr
    | _ => none

/-- The addresses of the channels closed in a trace, in order. -/
def closes {Email Order : Type} (events : List (Event Email Order)) : List String :=
  events.filterMap fun e =>
    match e with
    | .closeChannel addr => some addr
    | _ => none

/-- The log records emitted in a trace, in order. -/
def logs {Email Order : Type} (events : List (Event Email Order)) : List LogEntry :=
  events.filterMap fun e =>
    match e with
    | .log entry => some entry
    | _ => none

/-- The informational log records emitted in a trace, in order. -/
def infoLogs {Email Order : Type} (events : List (Event Email Order)) : List LogEntry :=
  (logs events).filter fun entry => entry.level = LogLevel.info

/-- The error log records emitted in a trace, in order. -/
def errorLogs {Email Order : Type} (events : List (Event Email Order)) : List LogEntry :=
  (logs events).filter fun entry => entry.level = LogLevel.error

/-- One invocation of the client: its two arguments and the outcome the remote
service produces for it. -/
structure Invocation (Email Order Resp : Type) where
  email : Email
  order : Order
  outcome : RemoteOutcome Resp

/-- A sequence of invocations of `send_confirmation_email`, each yielding its
own trace.  The module holds no mutable state (the logger is the only
module-level object and is only written through), so a later invocation sees
nothing from an earlier one: the run is the list of per-invocation traces. -/
def runCalls {Email Order Resp : Type} (calls : List (Invocation Email Order Resp)) :
    List (List (Event Email Order)) :=
  calls.map fun c => trace c.email c.order c.outcome

/-- Embedding of the `if __name__ == '__main__':` block: it runs
`logger.info('Client for email service.')` and nothing else, and the script
then exits with the default exit code 0.  The first component is the event
trace, the second the process exit code. -/
def main_script : List (Event String String) × Nat :=
  ([Event.log ⟨LogLevel.info, "Client for email service."⟩], 0)

end MailService

namespace MailService

/-- Sanity check: the spec's concrete scenario, success case.  Recipient
`"a@b.com"`, an opaque order record, simulated success: the remote call is
issued once with exactly those values and one info log `"Request sent."` is
emitted. -/
theorem concrete_scenario_success :
    sends (trace "a@b.com" "order-123" (RemoteOutcome.success ())) =
      [⟨"a@b.com", "order-123"⟩] ∧
    logs (trace "a@b.com" "order-123" (RemoteOutcome.success ())) =
      [⟨LogLevel.info, "Request sent."⟩] := by
  constructor <;> rfl

/-- Sanity check: the spec's concrete scenario, failure case with detail
`"unavailable"` and code `UNAVAILABLE`/`14`: two error logs, `"unavailable"`
then `"UNAVAILABLE, 14"`. -/
theorem concrete_scenario_failure :
    logs (trace "a@b.com" "order-123"
        (RemoteOutcome.failure ⟨"unavailable", ⟨"UNAVAILABLE", 14⟩⟩ : RemoteOutcome Unit)) =
      [⟨LogLevel.error, "unavailable"⟩, ⟨LogLevel.error, "UNAVAILABLE, 14"⟩] := by
  rfl

/-- C1: for every (email, order) input pair and every remote outcome, the
invocation issues exactly one remote `SendOrderConfirmation` call, and its
request has `email` and `order` fields exactly equal to the arguments. -/
theorem sends_exactly_one_request {Email Order Resp : Type}
    (email : Email) (order : Order) (outcome : RemoteOutcome Resp) :
    sends (trace email order outcome) = [⟨email, order⟩] := by
  cases outcome <;> rfl

/-- C2: whenever the remote call succeeds (for any response payload), exactly
one informational log entry is emitted, with message `"Request sent."`, and no
error log entries are emitted. -/
theorem success_logs_one_info_no_error {Email Order Resp : Type}
    (email : Email) (order : Order) (response : Resp) :
    infoLogs (trace email order (RemoteOutcome.success response)) =
      [⟨LogLevel.info, "Request sent."⟩] ∧
    errorLogs (trace email order (RemoteOutcome.success response)) = [] := by
  constructor <;> rfl

/-- C3: whenever the remote call fails with detail string `D` and a
classification code of name `NAME` and numeric value `VALUE`, exactly two
error log entries are emitted — the first with message `D`, the second with
message `NAME ++ ", " ++ VALUE` — and the function returns normally. -/
theorem failure_logs_two_errors_and_returns {Email Order Resp : Type}
    (email : Email) (order : Order) (D NAME : String) (VALUE : Nat) :
    errorLogs (trace email order
        (RemoteOutcome.failure ⟨D, ⟨NAME, VALUE⟩⟩ : RemoteOutcome Resp)) =
      [⟨LogLevel.error, D⟩, ⟨LogLevel.error, NAME ++ ", " ++ toString VALUE⟩] ∧
    result email order (RemoteOutcome.failure ⟨D, ⟨NAME, VALUE⟩⟩ : RemoteOutcome Resp) =
      Except.ok () := by
  constructor <;> rfl

/-- C4: for every input and every outcome of the remote call, the function
returns the same value, `None` (here `Except.ok ()`), and never lets the
remote-call failure escape to the caller. -/
theorem always_returns_ok {Email Order Resp : Type}
    (email : Email) (order : Order) (outcome : RemoteOutcome Resp) :
    result email order outcome = Except.ok () := by
  cases outcome <;> rfl

/-- C5: for every input pair — the email and order types are arbitrary, so this
covers absent or malformed values — the function performs no local validation:
its trace unconditionally begins by opening the channel and issuing the remote
call with the inputs as given, and no error is raised locally before the
remote call. -/
theorem no_local_validation {Email Order Resp : Type}
    (email : Email) (order : Order) (outcome : RemoteOutcome Resp) :
    (trace email order outcome).take 2 =
      [Event.openChannel "[::]:8080", Event.sendOrderConfirmation ⟨email, order⟩] ∧
    result email order outcome = Except.ok () := by
  cases outcome <;> exact ⟨rfl, rfl⟩

/-- C6: every invocation opens exactly one channel, to the fixed address
`"[::]:8080"`; across any sequence of invocations the number of channels
opened equals the number of invocations, so each call gets a fresh channel
and none is reused. -/
theorem one_fresh_channel_per_call {Email Order Resp : Type}
    (email : Email) (order : Order) (outcome : RemoteOutcome Resp)
    (calls : List (Invocation Email Order Resp)) :
    opens (trace email order outcome) = ["[::]:8080"] ∧
    ((runCalls calls).map fun events => (opens events).length).sum = calls.length := by
  refine ⟨by cases outcome <;> rfl, ?_⟩
  induction calls with
  | nil => rfl
  | cons c rest ih =>
      have hc : (opens (trace c.email c.order c.outcome)).length = 1 := by
        cases c.outcome <;> rfl
      simp only [runCalls, List.map_cons, List.map_map, List.sum_cons, List.length_cons]
      simp only [runCalls, List.map_map] at ih
      omega

/-- C7: repeated calls are independent: in any sequence of invocations, the
trace of the `i`-th invocation is a function of that invocation's own
arguments and outcome alone — it equals the trace of a standalone call with
the same arguments and outcome, whatever the other invocations are. -/
theorem calls_are_independent {Email Order Resp : Type}
    (calls : List (Invocation Email Order Resp)) (i : Nat) :
    (runCalls calls).get? i =
      (calls.get? i).map fun c => trace c.email c.order c.outcome := by
  simp [runCalls]

/-- C8: on success the behavior does not depend on the response payload: two
successful invocations with the same inputs but different responses produce
identical traces and identical results. -/
theorem response_payload_ignored {Email Order Resp : Type}
    (email : Email) (order : Order) (r1 r2 : Resp) :
    send_confirmation_email email order (RemoteOutcome.success r1) =
      send_confirmation_email email order (RemoteOutcome.success r2) := by
  rfl

/-- C9: run directly as a script, the module emits exactly one informational
log entry, the startup line `"Client for email service."`, issues no remote
call, opens no channel, and exits with the default exit code 0. -/
theorem main_script_only_logs_startup :
    logs main_script.1 = [⟨LogLevel.info, "Client for email service."⟩] ∧
    infoLogs main_script.1 = [⟨LogLevel.info, "Client for email service."⟩] ∧
    sends main_script.1 = [] ∧
    opens main_script.1 = [] ∧
    main_script.2 = 0 := by
  exact ⟨rfl, rfl, rfl, rfl, rfl⟩

/-- C10: the channel is never closed: on every execution path, success and
handled failure alike, the trace contains no channel-close event. -/
theorem channel_never_closed {Email Order Resp : Type}
    (email : Email) (order : Order) (outcome : RemoteOutcome Resp) :
    closes (trace email order outcome) = [] := by
  cases outcome <;> rfl

end MailService
